import Mathlib

/-!
Shallow embedding of the head-pan / fist-volume tracking application
(src/app.py) and verification of its specification.

Modelling conventions:
- Python floats are modelled as real numbers.
- A MediaPipe hand is a fixed sequence of 21 landmarks, each with x, y, z
  coordinates; a face detection carries a relative bounding box and a list
  of scores (the code reads score[0]).
- The global mutable pan_history list is threaded explicitly through
  smooth_pan and the per-tick processing function.
- The per-tick body of camera_loop (lines 69-123 of src/app.py) is split
  into process_tick (the signal computation, lines 77-117) and camera_tick
  (frame acquisition plus the two emitted events); drawing and JPEG
  encoding are display-only side effects on the frame buffer and carry no
  information consumed downstream, so they are not modelled.
- The socketio handlers start_tracking and disconnect act on a session
  state holding the camera handle presence, the is_running flag and the
  number of live camera-loop threads; start_tracking additionally returns
  the ordered list of atomic actions it performs, so that statement order
  (flag set before thread spawn) is observable.  disconnect clears
  is_running; the loop observes the cleared flag at the top of its next
  tick and exits, which the session model renders synchronously by
  zeroing the live-loop count.
-/

namespace App

/-- One MediaPipe landmark: normalized x, y, z coordinates. -/
structure Landmark where
  x : ℝ
  y : ℝ
  z : ℝ

/-- A detected hand: the fixed ordered sequence of 21 landmarks
(hand_landmarks.landmark in the source). -/
structure HandLandmarks where
  landmark : Fin 21 → Landmark

/-- A normalized relative bounding box (xmin, ymin, width, height). -/
structure RelativeBoundingBox where
  xmin : ℝ
  ymin : ℝ
  width : ℝ
  height : ℝ

/-- The location data of a face detection
(det.location_data in the source). -/
structure LocationData where
  relative_bounding_box : RelativeBoundingBox

/-- One face detection: location data plus the list of scores
(the code reads det.score[0]; MediaPipe guarantees the list is
nonempty, so the model reads the head with default 0). -/
structure FaceDetection where
  location_data : LocationData
  score : List ℝ

/-- The signal payload emitted as the audio_update event
(lines 113-117 of src/app.py). -/
structure SignalPayload where
  pan : ℝ
  volume : ℝ
  confidence : ℝ

/-- SMOOTH = 6 (line 43): capacity of the pan history FIFO. -/
def SMOOTH : ℕ := 6

/-- smooth_pan (lines 45-49): append val to the history; if the length
now exceeds SMOOTH, pop the oldest element (pan_history.pop(0), i.e. the
head); return the new history together with np.mean of it (sum divided
by length).  The global pan_history is threaded explicitly. -/
noncomputable def smooth_pan (history : List ℝ) (val : ℝ) : List ℝ × ℝ :=
  let h1 := history ++ [val]
  let h2 := if SMOOTH < h1.length then h1.tail else h1
  (h2, h2.sum / (h2.length : ℝ))

/-- np.interp(dist, [0.02, 0.18], [0.0, 1.0]) (line 59): clamp to the
endpoint value outside the domain, linear interpolation inside. -/
noncomputable def interp_volume (dist : ℝ) : ℝ :=
  if dist ≤ 0.02 then 0.0
  else if 0.18 ≤ dist then 1.0
  else 0.0 + (dist - 0.02) * (1.0 - 0.0) / (0.18 - 0.02)

/-- math.hypot(thumb.x - index.x, thumb.y - index.y) (lines 53-56):
euclidean distance between the thumb tip (landmark 4) and the index tip
(landmark 8). -/
noncomputable def pinch_dist (hl : HandLandmarks) : ℝ :=
  Real.sqrt (((hl.landmark 4).x - (hl.landmark 8).x) ^ 2 +
             ((hl.landmark 4).y - (hl.landmark 8).y) ^ 2)

/-- calculate_volume (lines 52-61): interpolate the pinch distance into
[0, 1] and clamp with max(0.0, min(1.0, volume)). -/
noncomputable def calculate_volume (hl : HandLandmarks) : ℝ :=
  max 0.0 (min 1.0 (interp_volume (pinch_dist hl)))

/-- SENSITIVITY = 3.0 (line 88). -/
noncomputable def SENSITIVITY : ℝ := 3.0

/-- pan = ((cx * 2) - 1) * SENSITIVITY with cx = xmin + width / 2
(lines 87-90). -/
noncomputable def raw_pan (box : RelativeBoundingBox) : ℝ :=
  let cx := box.xmin + box.width / 2
  ((cx * 2) - 1) * SENSITIVITY

/-- pan = max(-1, min(1, pan)) (line 91): the pre-smoothing pan. -/
noncomputable def clamped_pan (box : RelativeBoundingBox) : ℝ :=
  max (-1) (min 1 (raw_pan box))

/-- The signal computation of one camera_loop tick (lines 77-117):
defaults pan = 0.0, volume = 1.0, confidence = 0.0; if a face was
detected, recompute pan from the first detection, smooth it, and take
confidence from the detection score; if a hand was detected, recompute
volume from the first hand.  Returns the new pan history and the
payload emitted as audio_update. -/
noncomputable def process_tick (history : List ℝ) (faces : List FaceDetection)
    (hands : List HandLandmarks) : List ℝ × SignalPayload :=
  let pan0 : ℝ := 0.0
  let volume0 : ℝ := 1.0
  let confidence0 : ℝ := 0.0
  let face_step : List ℝ × ℝ × ℝ :=
    match faces with
    | [] => (history, pan0, confidence0)
    | det :: _ =>
        let box := det.location_data.relative_bounding_box
        let r := smooth_pan history (clamped_pan box)
        (r.1, r.2, det.score.headI)
  let volume : ℝ :=
    match hands with
    | [] => volume0
    | hl :: _ => calculate_volume hl
  (face_step.1, ⟨face_step.2.1, volume, face_step.2.2⟩)

/-- The two events a successful tick publishes over the socket:
the audio_update signal payload (line 113) and the video_frame
event (line 121; the base64 frame content is display-only and not
modelled). -/
inductive Event where
  | audio_update (payload : SignalPayload)
  | video_frame

/-- The per-tick input from the outside world: camera.read() success
flag ret (line 70), the face detections (face_results.detections,
empty when None) and the hand landmark sets
(hand_results.multi_hand_landmarks, empty when None). -/
structure TickInput where
  ret : Bool
  faces : List FaceDetection
  hands : List HandLandmarks

/-- One iteration of the while body of camera_loop (lines 70-123):
if camera.read() failed (not ret), continue - nothing is published and
the history is untouched; otherwise run the signal computation and
publish audio_update then video_frame, in that order. -/
noncomputable def camera_tick (history : List ℝ) (inp : TickInput) :
    List ℝ × List Event :=
  if inp.ret then
    let r := process_tick history inp.faces inp.hands
    (r.1, [Event.audio_update r.2, Event.video_frame])
  else (history, [])

/-- The state owned by camera_loop: the pan history plus the shared
is_running flag and camera handle presence read in the loop guard
(line 69). -/
structure LoopState where
  history : List ℝ
  is_running : Bool
  camera_some : Bool

/-- camera_loop (lines 64-125) driven by a finite list of tick inputs:
while is_running and camera, consume one input per iteration, appending
the events each tick publishes in order. -/
noncomputable def camera_loop : LoopState → List TickInput → LoopState × List Event
  | st, [] => (st, [])
  | st, inp :: rest =>
      if st.is_running && st.camera_some then
        let r := camera_tick st.history inp
        let r2 := camera_loop { st with history := r.1 } rest
        (r2.1, r.2 ++ r2.2)
      else (st, [])

/-- The atomic externally visible actions of the start_tracking
handler, in program order: acquiring the camera (line 195), setting
is_running to True (line 200), spawning the camera_loop thread
(line 201). -/
inductive SessionAction where
  | acquire_camera
  | set_running_true
  | spawn_loop
deriving DecidableEq

/-- Process-wide session state: whether the camera global is non-None,
the is_running flag, and the number of live camera_loop threads. -/
structure SessionState where
  camera_some : Bool
  is_running : Bool
  live_loops : ℕ
deriving DecidableEq

/-- start_tracking (lines 190-202): if camera is None, acquire it;
if not is_running, set is_running = True and spawn a camera_loop
thread.  Returns the new state and the ordered action trace. -/
def start_tracking (st : SessionState) : SessionState × List SessionAction :=
  let s1 : SessionState × List SessionAction :=
    if st.camera_some then (st, [])
    else ({ st with camera_some := true }, [SessionAction.acquire_camera])
  if s1.1.is_running then s1
  else ({ s1.1 with is_running := true, live_loops := s1.1.live_loops + 1 },
        s1.2 ++ [SessionAction.set_running_true, SessionAction.spawn_loop])

/-- disconnect (lines 204-207): clear is_running; the loop observes the
cleared flag in its guard and exits, rendered synchronously here by
zeroing the live-loop count. -/
def disconnect (st : SessionState) : SessionState :=
  { st with is_running := false, live_loops := 0 }

/-- Client triggers arriving over the socket. -/
inductive Trigger where
  | start
  | client_gone

/-- The session controller driven by a list of client triggers. -/
def run_session (st : SessionState) : List Trigger → SessionState
  | [] => st
  | Trigger.start :: ts => run_session (start_tracking st).1 ts
  | Trigger.client_gone :: ts => run_session (disconnect st) ts

/-- Process start: camera = None, is_running = False, no loop thread
(lines 21-22). -/
def init_session : SessionState := ⟨false, false, 0⟩

/-- Feeding a list of values through smooth_pan one after the other,
threading the history; returns the final history and the list of
smoothed outputs. -/
noncomputable def run_smooth (history : List ℝ) : List ℝ → List ℝ × List ℝ
  | [] => (history, [])
  | v :: vs =>
      let r := smooth_pan history v
      let r2 := run_smooth r.1 vs
      (r2.1, r.2 :: r2.2)

/-! ### Helper lemmas and concrete inputs -/

/-- A concrete hand whose thumb tip is at (0, 0) and index tip at
(0.1, 0): pinch distance 0.1. -/
noncomputable def hl_pinch_open : HandLandmarks :=
  ⟨fun i => if i = (8 : Fin 21) then ⟨0.1, 0.0, 0.7⟩ else ⟨0.0, 0.0, 0.3⟩⟩

/-- The same thumb and index x, y coordinates as hl_pinch_open, with
every z coordinate and every other landmark changed. -/
noncomputable def hl_pinch_noise : HandLandmarks :=
  ⟨fun i => if i = (8 : Fin 21) then ⟨0.1, 0.0, 9.9⟩
            else if i = (4 : Fin 21) then ⟨0.0, 0.0, 5.5⟩
            else ⟨7.7, 8.8, 9.9⟩⟩

lemma hl_open_4 : hl_pinch_open.landmark 4 = ⟨0.0, 0.0, 0.3⟩ := by
  simp only [hl_pinch_open]
  rw [if_neg (by decide)]

lemma hl_open_8 : hl_pinch_open.landmark 8 = ⟨0.1, 0.0, 0.7⟩ := by
  simp only [hl_pinch_open]
  simp

lemma hl_noise_4 : hl_pinch_noise.landmark 4 = ⟨0.0, 0.0, 5.5⟩ := by
  simp only [hl_pinch_noise]
  rw [if_neg (by decide)]
  simp

lemma hl_noise_8 : hl_pinch_noise.landmark 8 = ⟨0.1, 0.0, 9.9⟩ := by
  simp only [hl_pinch_noise]
  simp

lemma pinch_dist_hl_pinch_open : pinch_dist hl_pinch_open = 0.1 := by
  rw [pinch_dist, hl_open_4, hl_open_8]
  rw [show ((0.0 : ℝ) - 0.1) ^ 2 + ((0.0 : ℝ) - 0.0) ^ 2 = (0.1 : ℝ) ^ 2 by norm_num]
  exact Real.sqrt_sq (by norm_num)

/-! ### Claims -/

/-- Claim C1: for every hand, with d the euclidean pinch distance
between landmarks 4 and 8, calculate_volume returns 0.0 when d is at
most 0.02, returns 1.0 when d is at least 0.18, and returns the exact
linear interpolation (d - 0.02) / (0.18 - 0.02) for d strictly
between the two bounds. -/
theorem calculate_volume_spec (hl : HandLandmarks) :
    (pinch_dist hl ≤ 0.02 → calculate_volume hl = 0.0) ∧
    (0.18 ≤ pinch_dist hl → calculate_volume hl = 1.0) ∧
    (0.02 < pinch_dist hl → pinch_dist hl < 0.18 →
      calculate_volume hl = (pinch_dist hl - 0.02) / (0.18 - 0.02)) := by
  simp only [calculate_volume, interp_volume]
  set d := pinch_dist hl with hd
  refine ⟨?_, ?_, ?_⟩
  · intro h
    rw [if_pos h]
    norm_num
  · intro h
    rw [if_neg (by linarith), if_pos h]
    norm_num
  · intro h1 h2
    rw [if_neg (by linarith), if_neg (by linarith)]
    have he : 0.0 + (d - 0.02) * (1.0 - 0.0) / (0.18 - 0.02) =
        (d - 0.02) / (0.18 - 0.02) := by ring
    rw [he, show (0.0 : ℝ) = 0 from by norm_num, show (1.0 : ℝ) = 1 from by norm_num]
    have hnn : 0 ≤ (d - 0.02) / (0.18 - 0.02) := by
      apply div_nonneg <;> linarith
    have hle : (d - 0.02) / (0.18 - 0.02) ≤ 1 := by
      rw [div_le_one (by norm_num)]
      linarith
    rw [min_eq_right hle, max_eq_right hnn]

/-- Witness for claim C1 at pinch distance 0.1, which lies strictly
inside the interpolation domain and yields volume 0.5. -/
theorem calculate_volume_spec_witness :
    (0.02 : ℝ) < pinch_dist hl_pinch_open ∧
    pinch_dist hl_pinch_open < 0.18 ∧
    calculate_volume hl_pinch_open = 0.5 := by
  have hd : pinch_dist hl_pinch_open = 0.1 := pinch_dist_hl_pinch_open
  have h := (calculate_volume_spec hl_pinch_open).2.2
  rw [hd] at h ⊢
  refine ⟨by norm_num, by norm_num, ?_⟩
  rw [h (by norm_num) (by norm_num)]
  norm_num

/-- Claim C10: calculate_volume reads only the x and y coordinates of
landmarks 4 and 8: two hands agreeing on those four coordinates give
the same volume regardless of every other landmark and of all z
coordinates. -/
theorem calculate_volume_depends_only_xy (A B : HandLandmarks)
    (h4x : (A.landmark 4).x = (B.landmark 4).x)
    (h4y : (A.landmark 4).y = (B.landmark 4).y)
    (h8x : (A.landmark 8).x = (B.landmark 8).x)
    (h8y : (A.landmark 8).y = (B.landmark 8).y) :
    calculate_volume A = calculate_volume B := by
  simp only [calculate_volume, pinch_dist, h4x, h4y, h8x, h8y]

/-- Witness for claim C10: two concrete hands agreeing only on the
x, y coordinates of landmarks 4 and 8 produce equal volumes. -/
theorem calculate_volume_depends_only_xy_witness :
    calculate_volume hl_pinch_open = calculate_volume hl_pinch_noise :=
  calculate_volume_depends_only_xy hl_pinch_open hl_pinch_noise
    (by rw [hl_open_4, hl_noise_4])
    (by rw [hl_open_4, hl_noise_4])
    (by rw [hl_open_8, hl_noise_8])
    (by rw [hl_open_8, hl_noise_8])

/-- Claim C2: the pre-smoothing pan of a detected face box equals
((cx * 2 - 1) * 3.0) clamped to [-1, 1] with cx = xmin + width / 2;
the published pan of a face tick is the smoothing of exactly that
value; and the concrete box with xmin = 0.0, width = 0.2 has cx = 0.1,
raw pan -2.4 and clamped pan -1.0. -/
theorem pre_smoothing_pan_spec :
    (∀ box : RelativeBoundingBox,
      clamped_pan box =
        max (-1) (min 1 (((box.xmin + box.width / 2) * 2 - 1) * 3.0))) ∧
    (∀ (history : List ℝ) (det : FaceDetection) (rest : List FaceDetection)
        (hands : List HandLandmarks),
      (process_tick history (det :: rest) hands).2.pan =
        (smooth_pan history
          (clamped_pan det.location_data.relative_bounding_box)).2) ∧
    raw_pan ⟨0.0, 0.0, 0.2, 0.2⟩ = -2.4 ∧
    clamped_pan ⟨0.0, 0.0, 0.2, 0.2⟩ = -1 := by
  refine ⟨?_, ?_, ?_, ?_⟩
  · intro box
    simp only [clamped_pan, raw_pan, SENSITIVITY]
  · intro history det rest hands
    simp only [process_tick]
  · simp only [raw_pan, SENSITIVITY]
    norm_num
  · simp only [clamped_pan, raw_pan, SENSITIVITY]
    norm_num

/-- A concrete face detection whose box center cx = 0.7 gives raw pan
1.2, clamped to 1. -/
noncomputable def det_right : FaceDetection := ⟨⟨⟨0.6, 0.1, 0.2, 0.3⟩⟩, [0.9]⟩

lemma process_tick_det_right :
    process_tick [] [det_right] [] = ([1], ⟨1, 1.0, 0.9⟩) := by
  simp only [process_tick, det_right, smooth_pan, clamped_pan, raw_pan, SENSITIVITY,
    SMOOTH, List.headI]
  norm_num

/-- Counterexample to claim C3: after a face tick publishes smoothed
pan 1, a tick with zero detections publishes pan 0, not the held
value 1. -/
theorem pan_not_held_counterexample :
    (process_tick [] [det_right] []).2.pan = 1 ∧
    (process_tick (process_tick [] [det_right] []).1 [] []).2.pan = 0 ∧
    (process_tick (process_tick [] [det_right] []).1 [] []).2.pan ≠
      (process_tick [] [det_right] []).2.pan := by
  rw [process_tick_det_right]
  refine ⟨rfl, ?_, ?_⟩
  · simp [process_tick]
    norm_num
  · simp [process_tick]
    norm_num

/-- Claim C3 (amended): on a tick with zero face detections the
published pan equals the default 0.0 (not the previously published
smoothed pan) and the smoothing history is left unchanged. -/
theorem pan_default_when_no_face (history : List ℝ) (hands : List HandLandmarks) :
    (process_tick history [] hands).2.pan = 0.0 ∧
    (process_tick history [] hands).1 = history := by
  simp [process_tick]

/-- Claim C6: with zero face detections the published confidence is
0.0, and with zero hand detections the published volume is 1.0, each
independently of the other detector's result. -/
theorem default_confidence_volume :
    (∀ (history : List ℝ) (hands : List HandLandmarks),
      (process_tick history [] hands).2.confidence = 0.0) ∧
    (∀ (history : List ℝ) (faces : List FaceDetection),
      (process_tick history faces []).2.volume = 1.0) := by
  constructor
  · intro history hands
    simp [process_tick]
  · intro history faces
    rcases faces with _ | ⟨det, rest⟩ <;> simp [process_tick]

lemma smooth_pan_length_le (h : List ℝ) (v : ℝ) (hh : h.length ≤ SMOOTH) :
    ((smooth_pan h v).1).length ≤ SMOOTH := by
  simp only [smooth_pan]
  split_ifs with hc
  · simp only [List.length_tail, List.length_append, List.length_cons, List.length_nil]
    omega
  · simp only [List.length_append, List.length_cons, List.length_nil] at hc ⊢
    omega

lemma run_smooth_length_le (vals : List ℝ) :
    ∀ h : List ℝ, h.length ≤ SMOOTH → ((run_smooth h vals).1).length ≤ SMOOTH := by
  induction vals with
  | nil =>
      intro h hh
      simpa [run_smooth] using hh
  | cons v vs ih =>
      intro h hh
      simp only [run_smooth]
      exact ih _ (smooth_pan_length_le h v hh)

/-- Claim C4: smooth_pan keeps a FIFO whose length never exceeds 6
over any call sequence, returns the arithmetic mean of the current
contents, feeding seven 1s yields output 1 at every call (so in
particular from the 6th call onward), and feeding 0,0,0,0,0,1 yields
the outputs 0,0,0,0,0,1/6 ending in the mean 1/6. -/
theorem smooth_pan_spec :
    (∀ vals : List ℝ, ((run_smooth [] vals).1).length ≤ SMOOTH) ∧
    (∀ (h : List ℝ) (v : ℝ),
      (smooth_pan h v).2 =
        ((smooth_pan h v).1).sum / (((smooth_pan h v).1).length : ℝ)) ∧
    (run_smooth [] [1, 1, 1, 1, 1, 1, 1]).2 = [1, 1, 1, 1, 1, 1, 1] ∧
    (run_smooth [] [0, 0, 0, 0, 0, 1]).2 = [0, 0, 0, 0, 0, 1 / 6] := by
  refine ⟨?_, ?_, ?_, ?_⟩
  · intro vals
    exact run_smooth_length_le vals [] (by simp)
  · intro h v
    simp only [smooth_pan]
  · norm_num [run_smooth, smooth_pan, SMOOTH]
  · norm_num [run_smooth, smooth_pan, SMOOTH]

lemma list_mean_bounds (l : List ℝ) (hne : l ≠ [])
    (hb : ∀ x ∈ l, -1 ≤ x ∧ x ≤ 1) :
    -1 ≤ l.sum / (l.length : ℝ) ∧ l.sum / (l.length : ℝ) ≤ 1 := by
  have hpos : 0 < (l.length : ℝ) := by
    exact_mod_cast List.length_pos.mpr hne
  constructor
  · rw [le_div_iff₀ hpos]
    have hle : l.length • (-1 : ℝ) ≤ l.sum :=
      List.card_nsmul_le_sum l (-1) (fun x hx => (hb x hx).1)
    rw [nsmul_eq_mul] at hle
    linarith
  · rw [div_le_one hpos]
    have hle : l.sum ≤ l.length • (1 : ℝ) :=
      List.sum_le_card_nsmul l 1 (fun x hx => (hb x hx).2)
    rw [nsmul_eq_mul] at hle
    linarith

lemma smooth_pan_history_mem (h : List ℝ) (v : ℝ)
    (hb : ∀ x ∈ h, -1 ≤ x ∧ x ≤ 1) (hv : -1 ≤ v ∧ v ≤ 1) :
    ∀ x ∈ (smooth_pan h v).1, -1 ≤ x ∧ x ≤ 1 := by
  simp only [smooth_pan]
  intro x hx
  have hx' : x ∈ h ++ [v] := by
    split_ifs at hx with hc
    · exact List.mem_of_mem_tail hx
    · exact hx
  rcases List.mem_append.mp hx' with hmem | hmem
  · exact hb x hmem
  · rcases List.mem_singleton.mp hmem with rfl
    exact hv

lemma smooth_pan_ne_nil (h : List ℝ) (v : ℝ) : (smooth_pan h v).1 ≠ [] := by
  simp only [smooth_pan]
  split_ifs with hc
  · intro hcon
    have := congrArg List.length hcon
    simp only [List.length_tail, List.length_append, List.length_cons,
      List.length_nil] at this
    simp only [SMOOTH, List.length_append, List.length_cons, List.length_nil] at hc
    omega
  · simp

lemma smooth_pan_mean_mem (h : List ℝ) (v : ℝ)
    (hb : ∀ x ∈ h, -1 ≤ x ∧ x ≤ 1) (hv : -1 ≤ v ∧ v ≤ 1) :
    -1 ≤ (smooth_pan h v).2 ∧ (smooth_pan h v).2 ≤ 1 := by
  have hmean : (smooth_pan h v).2 =
      ((smooth_pan h v).1).sum / (((smooth_pan h v).1).length : ℝ) := by
    simp only [smooth_pan]
  rw [hmean]
  exact list_mean_bounds _ (smooth_pan_ne_nil h v) (smooth_pan_history_mem h v hb hv)

lemma clamped_pan_mem (box : RelativeBoundingBox) :
    -1 ≤ clamped_pan box ∧ clamped_pan box ≤ 1 := by
  constructor
  · exact le_max_left _ _
  · exact max_le (by norm_num) (min_le_left _ _)

lemma calculate_volume_mem (hl : HandLandmarks) :
    0 ≤ calculate_volume hl ∧ calculate_volume hl ≤ 1 := by
  simp only [calculate_volume,
    show (0.0 : ℝ) = 0 from by norm_num, show (1.0 : ℝ) = 1 from by norm_num]
  exact ⟨le_max_left _ _, max_le (by norm_num) (min_le_left _ _)⟩

/-- Claim C5: whenever every value in the pan history lies in [-1, 1]
(which holds for all reachable histories, since only clamped pans are
ever appended), one tick of the signal computation publishes a pan in
[-1, 1] and a volume in [0, 1], for arbitrary detector outputs, and
every value of the new history is again in [-1, 1]. -/
theorem payload_ranges (history : List ℝ) (faces : List FaceDetection)
    (hands : List HandLandmarks)
    (hb : ∀ x ∈ history, -1 ≤ x ∧ x ≤ 1) :
    (-1 ≤ (process_tick history faces hands).2.pan ∧
      (process_tick history faces hands).2.pan ≤ 1) ∧
    (0 ≤ (process_tick history faces hands).2.volume ∧
      (process_tick history faces hands).2.volume ≤ 1) ∧
    (∀ x ∈ (process_tick history faces hands).1, -1 ≤ x ∧ x ≤ 1) := by
  have hvol : 0 ≤ (process_tick history faces hands).2.volume ∧
      (process_tick history faces hands).2.volume ≤ 1 := by
    rcases hands with _ | ⟨hl, hrest⟩
    · rcases faces with _ | ⟨det, rest⟩ <;> simp only [process_tick] <;> norm_num
    · have hcv := calculate_volume_mem hl
      rcases faces with _ | ⟨det, rest⟩ <;> simp only [process_tick] <;> exact hcv
  refine ⟨?_, hvol, ?_⟩
  · rcases faces with _ | ⟨det, rest⟩
    · simp only [process_tick]
      exact ⟨by norm_num, by norm_num⟩
    · simp only [process_tick]
      exact smooth_pan_mean_mem history _ hb (clamped_pan_mem _)
  · rcases faces with _ | ⟨det, rest⟩
    · simp only [process_tick]
      exact hb
    · simp only [process_tick]
      exact smooth_pan_history_mem history _ hb (clamped_pan_mem _)

/-- Witness for claim C5 at a concrete tick: empty history, no
detections. -/
theorem payload_ranges_witness :
    (-1 ≤ (process_tick [] [] []).2.pan ∧ (process_tick [] [] []).2.pan ≤ 1) ∧
    (0 ≤ (process_tick [] [] []).2.volume ∧
      (process_tick [] [] []).2.volume ≤ 1) :=
  ⟨(payload_ranges [] [] [] (by simp)).1, (payload_ranges [] [] [] (by simp)).2.1⟩

/-- Claim C7: when camera.read() fails, the tick publishes nothing
and leaves the history unchanged, and the loop as a whole behaves as
if the failed tick never happened - it retries on the next input
while the running flag and camera guard hold. -/
theorem failed_read_skips_tick (st : LoopState) (inp : TickInput)
    (rest : List TickInput) (hret : inp.ret = false) :
    camera_tick st.history inp = (st.history, []) ∧
    camera_loop st (inp :: rest) = camera_loop st rest := by
  have ht : camera_tick st.history inp = (st.history, []) := by
    simp [camera_tick, hret]
  refine ⟨ht, ?_⟩
  by_cases hg : st.is_running && st.camera_some
  · simp only [camera_loop, if_pos hg, ht]
    simp
  · rcases rest with _ | ⟨i, r⟩
    · simp [camera_loop, hg]
    · simp only [camera_loop, if_neg hg]

/-- A tick input whose frame acquisition failed. -/
noncomputable def bad_tick : TickInput := ⟨false, [], []⟩

/-- A tick input whose frame acquisition succeeded and whose detectors
found nothing. -/
noncomputable def ok_tick : TickInput := ⟨true, [], []⟩

/-- A running loop state with an acquired camera and empty history. -/
noncomputable def st_running : LoopState := ⟨[], true, true⟩

/-- Witness for claim C7 at a concrete failed tick. -/
theorem failed_read_skips_tick_witness :
    camera_tick st_running.history bad_tick = (st_running.history, []) ∧
    camera_loop st_running [bad_tick] = camera_loop st_running [] :=
  failed_read_skips_tick st_running bad_tick [] rfl

/-- Claim C8: a successfully captured tick publishes exactly two
events, the audio_update signal payload first and the video_frame
event second. -/
theorem publish_order (history : List ℝ) (inp : TickInput)
    (hret : inp.ret = true) :
    (camera_tick history inp).2 =
      [Event.audio_update (process_tick history inp.faces inp.hands).2,
       Event.video_frame] := by
  simp [camera_tick, hret]

/-- Witness for claim C8 at a concrete successful tick. -/
theorem publish_order_witness :
    (camera_tick [] ok_tick).2 =
      [Event.audio_update (process_tick [] ok_tick.faces ok_tick.hands).2,
       Event.video_frame] :=
  publish_order [] ok_tick rfl

lemma run_session_inv (ts : List Trigger) :
    ∀ st : SessionState,
      (st.is_running = true → st.live_loops ≤ 1) →
      (st.is_running = false → st.live_loops = 0) →
      ((run_session st ts).is_running = true → (run_session st ts).live_loops ≤ 1) ∧
      ((run_session st ts).is_running = false → (run_session st ts).live_loops = 0) := by
  induction ts with
  | nil =>
      intro st h1 h2
      exact ⟨h1, h2⟩
  | cons t ts ih =>
      intro st h1 h2
      cases t with
      | start =>
          simp only [run_session]
          rcases st with ⟨c, r, n⟩
          cases r
          · have hn : n = 0 := h2 rfl
            subst hn
            cases c <;> exact ih _ (by simp [start_tracking]) (by simp [start_tracking])
          · have hn : n ≤ 1 := h1 rfl
            cases c <;>
              exact ih _ (by simp [start_tracking]; omega) (by simp [start_tracking])
      | client_gone =>
          simp only [run_session]
          exact ih _ (by simp [disconnect]) (by simp [disconnect])

/-- Claim C9: start_tracking leaves the session state untouched when
the running flag is already set (so a second start trigger spawns
nothing); it spawns a loop only when the flag is clear, and then its
action trace sets the flag strictly before spawning the thread; and
over every trigger sequence from process start, at most one loop
instance is ever live. -/
theorem start_tracking_spec :
    (∀ st : SessionState, st.is_running = true → st.camera_some = true →
      start_tracking st = (st, [])) ∧
    (∀ st : SessionState,
      SessionAction.spawn_loop ∈ (start_tracking st).2 →
        st.is_running = false) ∧
    (∀ st : SessionState, st.is_running = false →
      (start_tracking st).2 =
        (if st.camera_some then [] else [SessionAction.acquire_camera]) ++
          [SessionAction.set_running_true, SessionAction.spawn_loop] ∧
      (start_tracking st).1.is_running = true ∧
      (start_tracking st).1.live_loops = st.live_loops + 1) ∧
    (∀ ts : List Trigger, (run_session init_session ts).live_loops ≤ 1) := by
  refine ⟨?_, ?_, ?_, ?_⟩
  · intro st h1 h2
    simp [start_tracking, h1, h2]
  · intro st hmem
    rcases st with ⟨c, r, n⟩
    cases r
    · rfl
    · exfalso
      cases c <;> simp [start_tracking] at hmem
  · intro st h
    rcases st with ⟨c, r, n⟩
    cases r
    · cases c <;> simp [start_tracking]
    · exact absurd h (by simp)
  · intro ts
    have hinv := run_session_inv ts init_session (by simp [init_session])
      (by simp [init_session])
    by_cases hr : (run_session init_session ts).is_running = true
    · exact hinv.1 hr
    · have h0 := hinv.2 (by simpa using hr)
      omega

/-- Witness for claim C9: concrete states exercising each branch of
the start handler, with hypotheses discharged at concrete inputs. -/
theorem start_tracking_spec_witness :
    start_tracking ⟨true, true, 1⟩ = (⟨true, true, 1⟩, []) ∧
    (SessionState.mk false false 0).is_running = false ∧
    ((start_tracking ⟨true, false, 0⟩).2 =
        (if (true : Bool) then [] else [SessionAction.acquire_camera]) ++
          [SessionAction.set_running_true, SessionAction.spawn_loop] ∧
      (start_tracking ⟨true, false, 0⟩).1.is_running = true ∧
      (start_tracking ⟨true, false, 0⟩).1.live_loops = 0 + 1) ∧
    (run_session init_session [Trigger.start, Trigger.start]).live_loops ≤ 1 :=
  ⟨start_tracking_spec.1 ⟨true, true, 1⟩ rfl rfl,
   start_tracking_spec.2.1 ⟨false, false, 0⟩ (by decide),
   start_tracking_spec.2.2.1 ⟨true, false, 0⟩ rfl,
   start_tracking_spec.2.2.2 [Trigger.start, Trigger.start]⟩

end App
